import Mathlib

/-!
Shallow embedding of the core of `insider_threat_system.py`: the sentiment
lexicon and `sentiment_score`, the risk-scoring engine `compute_risk`, and
the alert/case lifecycle with its automated-action gate and audit log.
Machine floats are modelled by `ℚ` and wall-clock timestamps by a `Nat`
clock carried in the system state.
-/

namespace ITS

/-- The fixed sentiment lexicon `SENTIMENT_LEXICON` from the source. -/
def SENTIMENT_LEXICON : String → Option ℚ := fun w =>
  if w = "bad" then some (-1)
  else if w = "angry" then some (-1)
  else if w = "hate" then some (-1)
  else if w = "suspicious" then some (-1)
  else if w = "concern" then some (-0.5)
  else if w = "sorry" then some (-0.3)
  else if w = "help" then some (-0.2)
  else if w = "thanks" then some 0.5
  else if w = "great" then some 0.7
  else if w = "ok" then some 0.1
  else if w = "urgent" then some (-0.5)
  else if w = "immediately" then some (-0.4)
  else if w = "stressed" then some (-0.8)
  else if w = "happy" then some 0.8
  else none

/-- The punctuation characters stripped by `w.strip(".,!?;:")`. -/
def isPunct (c : Char) : Bool :=
  c = '.' || c = ',' || c = '!' || c = '?' || c = ';' || c = ':'

/-- Python `w.strip(".,!?;:")`: drop the characters of the set from both ends. -/
def stripPunct (w : String) : String :=
  ⟨((w.data.dropWhile isPunct).reverse.dropWhile isPunct).reverse⟩

/-- Whitespace splitter on a character list: accumulates the current word
(reversed) and emits maximal non-whitespace runs, so empty pieces never
appear — the behaviour of Python `text.split()` with no argument. -/
def wordsAux (cur : List Char) : List Char → List (List Char)
  | [] => if cur = [] then [] else [cur.reverse]
  | c :: cs =>
    if c.isWhitespace then
      if cur = [] then wordsAux [] cs else cur.reverse :: wordsAux [] cs
    else wordsAux (c :: cur) cs

/-- Python `text.split()`: split on whitespace runs, discarding empty pieces. -/
def pySplit (text : String) : List String :=
  (wordsAux [] text.data).map (fun l => ⟨l⟩)

/-- Python `w.lower()` (ASCII lowering, enough for the lexicon keys). -/
def toLowerS (w : String) : String := ⟨w.data.map Char.toLower⟩

/-- The token list `[w.strip(".,!?;:").lower() for w in text.split()]`. -/
def tokenize (text : String) : List String :=
  (pySplit text).map (fun w => toLowerS (stripPunct w))

/-- Definition of `sentiment_score` from the source: average the lexicon values of the
tokens found in the lexicon, 0.0 when no token matches, clamped to [-1,1]. -/
def sentiment_score (text : String) : ℚ :=
  let words := tokenize text
  if words = [] then 0
  else
    let vals := words.filterMap SENTIMENT_LEXICON
    if vals.length = 0 then 0
    else max (-1) (min 1 (vals.sum / (max 1 vals.length : ℕ)))

/-- The feature bundle consumed by `compute_risk`. -/
structure Features where
  off_hours_activity : ℚ
  file_downloads_last_24h : ℤ
  sentiment : ℚ
  usb_activity : ℤ
  unusual_processes : ℤ
deriving DecidableEq, Repr

/-- The per-feature contribution breakdown returned by `compute_risk`. -/
structure Contributions where
  off_hours_activity : ℚ
  file_downloads : ℚ
  sentiment : ℚ
  usb_activity : ℚ
  unusual_processes : ℚ
  anomaly_boost : ℚ
deriving DecidableEq, Repr

/-- The download normalization `min(1.0, features.get("file_downloads_last_24h", 0) / 50.0)`. -/
def downloads_norm (d : ℤ) : ℚ := min 1 ((d : ℚ) / 50)

/-- The process normalization `min(1.0, features.get("unusual_processes", 0) / 5.0)`. -/
def processes_norm (p : ℤ) : ℚ := min 1 ((p : ℚ) / 5)

/-- Python truthiness of the 0/1 `usb_activity` field:
`1.0 if features.get("usb_activity", 0) else 0.0`. -/
def usbVal (u : ℤ) : ℚ := if u ≠ 0 then 1 else 0

/-- The anomaly boost accumulated by `compute_risk`. -/
def anomalyBoost (f : Features) : ℚ :=
  (if f.file_downloads_last_24h > 30 then 0.12 else 0)
  + (if f.off_hours_activity > 0.6 ∧ max 0 (-f.sentiment) > 0.3 then 0.10 else 0)
  + (if f.usb_activity ≠ 0 ∧ f.file_downloads_last_24h > 10 then 0.08 else 0)

/-- The weighted linear base of `compute_risk`. -/
def riskBase (f : Features) : ℚ :=
  0.30 * f.off_hours_activity
  + 0.25 * downloads_norm f.file_downloads_last_24h
  + (-0.20) * f.sentiment
  + 0.12 * usbVal f.usb_activity
  + 0.13 * processes_norm f.unusual_processes

/-- Definition of `compute_risk` from the source: weighted linear ensemble plus anomaly
boosts, clamped to [0,1], returned with the contribution breakdown. -/
def compute_risk (f : Features) : ℚ × Contributions :=
  let base := riskBase f
  let boost := anomalyBoost f
  let score := max 0 (min 1 (base + boost))
  (score,
   { off_hours_activity := 0.30 * f.off_hours_activity
     file_downloads := 0.25 * downloads_norm f.file_downloads_last_24h
     sentiment := (-0.20) * f.sentiment
     usb_activity := 0.12 * usbVal f.usb_activity
     unusual_processes := 0.13 * processes_norm f.unusual_processes
     anomaly_boost := boost })

/-! ### Alert/case lifecycle, automated-action gate and audit log -/

/-- Alert statuses used by the source (status strings on alert dicts). -/
inductive Status where
  | New
  | Triaged
  | UnderInvestigation
  | Mitigated
deriving DecidableEq, Repr

/-- Case statuses used by the source. -/
inductive CaseStatus where
  | Open
  | Closed
deriving DecidableEq, Repr

/-- An event record from `EVENT_STORE` (the fields the lifecycle reads). -/
structure Event where
  event_id : String
  user_id : String
  user_name : String
  dept : String
  message : String
deriving DecidableEq, Repr

/-- An alert dict as built by `process_event_to_alert`. -/
structure Alert where
  alert_id : String
  event : Event
  score : ℚ
  contributions : Contributions
  status : Status
  created_at : Nat
  assigned_to : Option String
  case_id : Option String
deriving DecidableEq, Repr

/-- A case dict as built by `create_case_from_alert`. -/
structure Case where
  case_id : String
  alert_id : String
  user_id : String
  user_name : String
  dept : String
  score : ℚ
  status : CaseStatus
  assigned_to : Option String
  created_at : Nat
deriving DecidableEq, Repr

/-- An `AUDIT_LOG` entry.  Entries from `take_automated_action` carry a
score and details; the lifecycle entries (`assigned`, `case_created`,
`case_closed`) do not, hence the `Option` fields. -/
structure AuditEntry where
  timestamp : Nat
  alert_id : String
  action : String
  actor : String
  score : Option ℚ
  details : Option String
deriving DecidableEq, Repr

/-- The global mutable stores of the source (`EVENT_STORE`, `ALERTS`,
`CASES`, `AUDIT_LOG`) together with the auto-action configuration and a
clock standing for the wall-clock timestamps. -/
structure SysState where
  events : List Event
  alerts : List Alert
  cases : List Case
  audit : List AuditEntry
  auto_enabled : Bool
  auto_threshold : ℚ
  clock : Nat
deriving DecidableEq, Repr

/-- Definition of `take_automated_action(alert, action, actor)`: build the audit entry,
set the status to `Mitigated` when the action is a remediation action.
Returns the updated alert together with the appended entry. -/
def take_automated_action (alert : Alert) (action actor : String) (ts : Nat) :
    Alert × AuditEntry :=
  let log : AuditEntry :=
    { timestamp := ts
      alert_id := alert.alert_id
      action := action
      actor := actor
      score := some alert.score
      details := some ("Action executed: " ++ action) }
  let alert' :=
    if action = "isolate_endpoint" ∨ action = "lock_account" then
      { alert with status := Status.Mitigated }
    else alert
  (alert', log)

/-- Apply `take_automated_action` to alert `i` of the state: the in-place
mutation of the aliased alert dict plus the `AUDIT_LOG.append`. -/
def do_automated_action (s : SysState) (i : Nat) (action actor : String) : SysState :=
  match s.alerts.get? i with
  | none => s
  | some a =>
    let r := take_automated_action a action actor s.clock
    { s with alerts := s.alerts.set i r.1, audit := s.audit ++ [r.2] }

/-- The gate `ITSApp.autoremediate`: rejected without side effects when auto actions
are disabled or the score is below the threshold; otherwise one call to
`take_automated_action` with `isolate_endpoint`. -/
def autoremediate (s : SysState) (i : Nat) : SysState :=
  if s.auto_enabled = false then s
  else
    match s.alerts.get? i with
    | none => s
    | some a =>
      if a.score ≥ s.auto_threshold then
        do_automated_action s i "isolate_endpoint" "auto-system"
      else s

/-- Assignment `ITSApp.assign_alert`: set `assigned_to` and status `Triaged`, append an
`assigned` audit entry.  The analyst is chosen randomly in the source, so it
is a parameter here. -/
def assign_alert (s : SysState) (i : Nat) (analyst : String) : SysState :=
  match s.alerts.get? i with
  | none => s
  | some a =>
    { s with
      alerts := s.alerts.set i
        { a with assigned_to := some analyst, status := Status.Triaged }
      audit := s.audit ++
        [{ timestamp := s.clock, alert_id := a.alert_id, action := "assigned",
           actor := "gui", score := none, details := none }] }

/-- Case creation `ITSApp.create_case_from_alert`: append a case snapshotting the alert,
link it, set status `Under Investigation`, append a `case_created` entry. -/
def create_case_from_alert (s : SysState) (i : Nat) : SysState :=
  match s.alerts.get? i with
  | none => s
  | some a =>
    let c : Case :=
      { case_id := "case_" ++ toString s.clock
        alert_id := a.alert_id
        user_id := a.event.user_id
        user_name := a.event.user_name
        dept := a.event.dept
        score := a.score
        status := CaseStatus.Open
        assigned_to := a.assigned_to
        created_at := s.clock }
    { s with
      cases := s.cases ++ [c]
      alerts := s.alerts.set i
        { a with case_id := some c.case_id, status := Status.UnderInvestigation }
      audit := s.audit ++
        [{ timestamp := s.clock, alert_id := a.alert_id, action := "case_created",
           actor := "gui", score := none, details := none }] }

/-- Case closure `ITSApp.close_case`: set the case status to `Closed` and append a
`case_closed` entry; the linked alert is not touched. -/
def close_case (s : SysState) (j : Nat) : SysState :=
  match s.cases.get? j with
  | none => s
  | some c =>
    { s with
      cases := s.cases.set j { c with status := CaseStatus.Closed }
      audit := s.audit ++
        [{ timestamp := s.clock, alert_id := c.alert_id, action := "case_closed",
           actor := "analyst", score := none, details := none }] }

/-- The loop body of `ITSApp.run_auto_sweep` over the alert list: skip
alerts in `Mitigated`/`Under Investigation`, act on those meeting the
threshold, and thread the updated alerts, new audit entries and count. -/
def sweepGo (thr : ℚ) (clock : Nat) : List Alert → List Alert × List AuditEntry × Nat
  | [] => ([], [], 0)
  | a :: rest =>
    if a.status = Status.Mitigated ∨ a.status = Status.UnderInvestigation then
      let r := sweepGo thr clock rest
      (a :: r.1, r.2.1, r.2.2)
    else if a.score ≥ thr then
      let t := take_automated_action a "isolate_endpoint" "auto-sweep" clock
      let r := sweepGo thr clock rest
      (t.1 :: r.1, t.2 :: r.2.1, r.2.2 + 1)
    else
      let r := sweepGo thr clock rest
      (a :: r.1, r.2.1, r.2.2)

/-- The sweep `ITSApp.run_auto_sweep`: a no-op when auto actions are disabled,
otherwise a single pass over the alerts in iteration order; returns the
updated state together with the count reported to the caller. -/
def run_auto_sweep (s : SysState) : SysState × Nat :=
  if s.auto_enabled = false then (s, 0)
  else
    let r := sweepGo s.auto_threshold s.clock s.alerts
    ({ s with alerts := r.1, audit := s.audit ++ r.2.1 }, r.2.2)

/-- An alert the sweep acts on: not skipped (`Mitigated`/`Under
Investigation`) and meeting the threshold. -/
def eligible (thr : ℚ) (a : Alert) : Bool :=
  decide ((a.status ≠ Status.Mitigated ∧ a.status ≠ Status.UnderInvestigation)
    ∧ a.score ≥ thr)

/-- The lifecycle operations a driver may invoke, for reachability claims. -/
inductive Op where
  | assign (i : Nat) (analyst : String)
  | createCase (i : Nat)
  | closeCase (j : Nat)
  | autoAction (i : Nat) (action actor : String)
  | remediate (i : Nat)
  | sweep
deriving DecidableEq, Repr

/-- Apply one lifecycle operation to the state. -/
def applyOp (s : SysState) : Op → SysState
  | Op.assign i analyst => assign_alert s i analyst
  | Op.createCase i => create_case_from_alert s i
  | Op.closeCase j => close_case s j
  | Op.autoAction i action actor => do_automated_action s i action actor
  | Op.remediate i => autoremediate s i
  | Op.sweep => (run_auto_sweep s).1

/-- Apply a sequence of lifecycle operations in order. -/
def applyOps (s : SysState) (ops : List Op) : SysState :=
  ops.foldl applyOp s

/-! ### Concrete data for scenarios and witnesses -/

/-- The feature bundle of the scoring scenario in the spec. -/
def scenarioFeatures : Features :=
  { off_hours_activity := 0.8
    file_downloads_last_24h := 40
    sentiment := -0.8
    usb_activity := 1
    unusual_processes := 3 }

/-- The sum of all entries of a contribution breakdown. -/
def contribSum (c : Contributions) : ℚ :=
  c.off_hours_activity + c.file_downloads + c.sentiment + c.usb_activity
    + c.unusual_processes + c.anomaly_boost

/-- A sample event for concrete lifecycle states. -/
def demoEvent : Event :=
  { event_id := "ev_1", user_id := "u001", user_name := "Alice",
    dept := "Engineering", message := "I am stressed" }

/-- An all-zero contribution breakdown for sample alerts. -/
def zeroContrib : Contributions :=
  { off_hours_activity := 0, file_downloads := 0, sentiment := 0,
    usb_activity := 0, unusual_processes := 0, anomaly_boost := 0 }

/-- A sample alert with a given id, score and status. -/
def mkAlert (id : String) (sc : ℚ) (st : Status) : Alert :=
  { alert_id := id, event := demoEvent, score := sc, contributions := zeroContrib,
    status := st, created_at := 0, assigned_to := none, case_id := none }

/-- A state with one fresh alert scoring 0.7, auto actions enabled at 0.65. -/
def demoState : SysState :=
  { events := [demoEvent], alerts := [mkAlert "al_1" 0.7 Status.New],
    cases := [], audit := [], auto_enabled := true, auto_threshold := 0.65,
    clock := 5 }

/-- The sweep scenario state: three fresh alerts scoring 0.5, 0.7, 0.9,
auto actions enabled at threshold 0.65. -/
def sweepState : SysState :=
  { events := []
    alerts := [mkAlert "al_a" 0.5 Status.New, mkAlert "al_b" 0.7 Status.New,
               mkAlert "al_c" 0.9 Status.New]
    cases := [], audit := [], auto_enabled := true, auto_threshold := 0.65,
    clock := 9 }

/-- A state whose single alert is already `Mitigated`. -/
def mitState : SysState :=
  { events := [], alerts := [mkAlert "al_m" 0.9 Status.Mitigated],
    cases := [], audit := [], auto_enabled := true, auto_threshold := 0.65,
    clock := 3 }

/-! ### Basic unfolding lemmas -/

theorem compute_risk_fst (f : Features) :
    (compute_risk f).1 = max 0 (min 1 (riskBase f + anomalyBoost f)) := rfl

theorem compute_risk_snd (f : Features) :
    (compute_risk f).2 =
      { off_hours_activity := 0.30 * f.off_hours_activity
        file_downloads := 0.25 * downloads_norm f.file_downloads_last_24h
        sentiment := (-0.20) * f.sentiment
        usb_activity := 0.12 * usbVal f.usb_activity
        unusual_processes := 0.13 * processes_norm f.unusual_processes
        anomaly_boost := anomalyBoost f } := rfl

/-! ### Claim theorems -/

/-- C2: on the scenario features (off-hours 0.8, 40 downloads, sentiment
-0.8, usb on, 3 unusual processes) the linear base is exactly 0.798, all
three anomaly boosts fire (0.12, 0.10 and 0.08), and the clamped score
returned by `compute_risk` is exactly 1.0. -/
theorem scenario_score_is_one :
    riskBase scenarioFeatures = 0.798
    ∧ anomalyBoost scenarioFeatures = 0.12 + 0.10 + 0.08
    ∧ (compute_risk scenarioFeatures).1 = 1 := by
  refine ⟨?_, ?_, ?_⟩ <;>
    norm_num [scenarioFeatures, riskBase, anomalyBoost, compute_risk,
      downloads_norm, processes_norm, usbVal]

/-- C9: the contribution entries returned by `compute_risk` sum exactly to
the raw pre-clamp score, and the returned score is exactly that sum clamped
to [0,1] — clamping is the only discrepancy between the two. -/
theorem contributions_sum_to_raw_score (f : Features) :
    contribSum (compute_risk f).2 = riskBase f + anomalyBoost f
    ∧ (compute_risk f).1 = max 0 (min 1 (contribSum (compute_risk f).2)) := by
  have h : contribSum (compute_risk f).2 = riskBase f + anomalyBoost f := by
    rw [compute_risk_snd]
    simp only [contribSum, riskBase]
  exact ⟨h, by rw [compute_risk_fst, h]⟩

/-- C8: the function `sentiment_score` equals the clamped average of the lexicon values
of exactly the matching tokens (lower-cased, punctuation-stripped), is 0
when no token matches, and is 0 on the empty string. -/
theorem sentiment_score_is_clamped_average (text : String) :
    (sentiment_score text =
      if (tokenize text).filterMap SENTIMENT_LEXICON = [] then 0
      else
        max (-1) (min 1 (((tokenize text).filterMap SENTIMENT_LEXICON).sum
          / (((tokenize text).filterMap SENTIMENT_LEXICON).length : ℚ))))
    ∧ sentiment_score "" = 0 := by
  constructor
  · unfold sentiment_score
    by_cases hw : tokenize text = []
    · simp [hw]
    · simp only [hw, if_false, if_neg]
      by_cases hv : (tokenize text).filterMap SENTIMENT_LEXICON = []
      · simp [hv]
      · have hl : ((tokenize text).filterMap SENTIMENT_LEXICON).length ≠ 0 := by
          simpa [List.length_eq_zero] using hv
        have hm : max 1 ((tokenize text).filterMap SENTIMENT_LEXICON).length
            = ((tokenize text).filterMap SENTIMENT_LEXICON).length :=
          Nat.max_eq_right (Nat.one_le_iff_ne_zero.mpr hl)
        simp [hv, hl, hm]
  · rfl

/-- C3: for features in the declared domains the score is in [0,1], the
normalized download and process values are in [0,1], and `sentiment_score`
lands in [-1,1] on every string. -/
theorem risk_score_bounds (f : Features) (h1 : 0 ≤ f.off_hours_activity)
    (h2 : f.off_hours_activity ≤ 1) (h3 : 0 ≤ f.file_downloads_last_24h)
    (h4 : -1 ≤ f.sentiment) (h5 : f.sentiment ≤ 1)
    (h6 : 0 ≤ f.unusual_processes) :
    (0 ≤ (compute_risk f).1 ∧ (compute_risk f).1 ≤ 1)
    ∧ (0 ≤ downloads_norm f.file_downloads_last_24h
        ∧ downloads_norm f.file_downloads_last_24h ≤ 1)
    ∧ (0 ≤ processes_norm f.unusual_processes
        ∧ processes_norm f.unusual_processes ≤ 1)
    ∧ ∀ text, -1 ≤ sentiment_score text ∧ sentiment_score text ≤ 1 := by
  refine ⟨⟨?_, ?_⟩, ⟨?_, ?_⟩, ⟨?_, ?_⟩, ?_⟩
  · rw [compute_risk_fst]; exact le_max_left _ _
  · rw [compute_risk_fst]
    exact max_le (by norm_num) (min_le_left _ _)
  · exact le_min (by norm_num)
      (div_nonneg (by exact_mod_cast h3) (by norm_num))
  · exact min_le_left _ _
  · exact le_min (by norm_num)
      (div_nonneg (by exact_mod_cast h6) (by norm_num))
  · exact min_le_left _ _
  · intro text
    unfold sentiment_score
    by_cases hw : tokenize text = []
    · simp [hw]
    · simp only [hw, if_neg, if_false]
      by_cases hv : ((tokenize text).filterMap SENTIMENT_LEXICON).length = 0
      · simp [hv]
      · simp only [hv, if_false, if_neg]
        exact ⟨le_max_left _ _, max_le (by norm_num) (min_le_left _ _)⟩

/-- Witness for C3 at the scenario features. -/
theorem risk_score_bounds_witness :
    (0 ≤ (compute_risk scenarioFeatures).1 ∧ (compute_risk scenarioFeatures).1 ≤ 1)
    ∧ (0 ≤ downloads_norm scenarioFeatures.file_downloads_last_24h
        ∧ downloads_norm scenarioFeatures.file_downloads_last_24h ≤ 1)
    ∧ (0 ≤ processes_norm scenarioFeatures.unusual_processes
        ∧ processes_norm scenarioFeatures.unusual_processes ≤ 1)
    ∧ ∀ text, -1 ≤ sentiment_score text ∧ sentiment_score text ≤ 1 :=
  risk_score_bounds scenarioFeatures (by norm_num [scenarioFeatures])
    (by norm_num [scenarioFeatures]) (by norm_num [scenarioFeatures])
    (by norm_num [scenarioFeatures]) (by norm_num [scenarioFeatures])
    (by norm_num [scenarioFeatures])

theorem clamp_mono {x y : ℚ} (h : x ≤ y) : max 0 (min 1 x) ≤ max 0 (min 1 y) :=
  max_le_max le_rfl (min_le_min le_rfl h)

theorem boost_ite_mono {P Q : Prop} [Decidable P] [Decidable Q] {c : ℚ}
    (hc : 0 ≤ c) (hpq : P → Q) :
    (if P then c else 0) ≤ (if Q then c else 0) := by
  by_cases hp : P
  · simp [hp, hpq hp]
  · by_cases hq : Q <;> simp [hp, hq, hc]

/-- C4: the returned score is monotone non-decreasing in off-hours
activity, downloads and unusual processes, and non-decreasing as sentiment
becomes more negative, each with all other features held fixed. -/
theorem compute_risk_monotone (f : Features) :
    (∀ v w : ℚ, v ≤ w →
      (compute_risk { f with off_hours_activity := v }).1
        ≤ (compute_risk { f with off_hours_activity := w }).1)
    ∧ (∀ d e : ℤ, d ≤ e →
      (compute_risk { f with file_downloads_last_24h := d }).1
        ≤ (compute_risk { f with file_downloads_last_24h := e }).1)
    ∧ (∀ p q : ℤ, p ≤ q →
      (compute_risk { f with unusual_processes := p }).1
        ≤ (compute_risk { f with unusual_processes := q }).1)
    ∧ (∀ v w : ℚ, w ≤ v →
      (compute_risk { f with sentiment := v }).1
        ≤ (compute_risk { f with sentiment := w }).1) := by
  refine ⟨?_, ?_, ?_, ?_⟩
  · intro v w h
    rw [compute_risk_fst, compute_risk_fst]
    apply clamp_mono
    apply add_le_add
    · unfold riskBase
      dsimp only
      have : (0.30 : ℚ) * v ≤ 0.30 * w := by
        apply mul_le_mul_of_nonneg_left h; norm_num
      linarith
    · unfold anomalyBoost
      dsimp only
      refine add_le_add (add_le_add le_rfl ?_) le_rfl
      exact boost_ite_mono (by norm_num)
        (fun hp => ⟨lt_of_lt_of_le hp.1 h, hp.2⟩)
  · intro d e h
    rw [compute_risk_fst, compute_risk_fst]
    apply clamp_mono
    apply add_le_add
    · unfold riskBase
      dsimp only
      have : downloads_norm d ≤ downloads_norm e := by
        apply min_le_min le_rfl
        exact (div_le_div_iff_of_pos_right (by norm_num)).mpr (by exact_mod_cast h)
      linarith
    · unfold anomalyBoost
      dsimp only
      refine add_le_add (add_le_add ?_ le_rfl) ?_
      · exact boost_ite_mono (by norm_num) (fun hp => lt_of_lt_of_le hp h)
      · exact boost_ite_mono (by norm_num)
          (fun hp => ⟨hp.1, lt_of_lt_of_le hp.2 h⟩)
  · intro p q h
    rw [compute_risk_fst, compute_risk_fst]
    apply clamp_mono
    apply add_le_add
    · unfold riskBase
      dsimp only
      have : processes_norm p ≤ processes_norm q := by
        apply min_le_min le_rfl
        exact (div_le_div_iff_of_pos_right (by norm_num)).mpr (by exact_mod_cast h)
      linarith
    · unfold anomalyBoost
      dsimp only
      exact le_rfl
  · intro v w h
    rw [compute_risk_fst, compute_risk_fst]
    apply clamp_mono
    apply add_le_add
    · unfold riskBase
      dsimp only
      have : (-0.20 : ℚ) * v ≤ (-0.20) * w := by
        apply mul_le_mul_of_nonpos_left h; norm_num
      linarith
    · unfold anomalyBoost
      dsimp only
      refine add_le_add (add_le_add le_rfl ?_) le_rfl
      apply boost_ite_mono (by norm_num)
      intro hp
      refine ⟨hp.1, lt_of_lt_of_le hp.2 ?_⟩
      exact max_le_max le_rfl (neg_le_neg h)

/-- Witness for C4 at the scenario features. -/
theorem compute_risk_monotone_witness :
    (compute_risk { scenarioFeatures with off_hours_activity := 0.5 }).1
      ≤ (compute_risk { scenarioFeatures with off_hours_activity := 0.8 }).1 :=
  (compute_risk_monotone scenarioFeatures).1 0.5 0.8 (by norm_num)

theorem get?_set_some {α : Type _} (l : List α) {i : Nat} {a : α}
    (h : l.get? i = some a) (b : α) : (l.set i b).get? i = some b := by
  rw [List.get?_set_eq, h]; rfl

/-- C10: the function `take_automated_action` changes no alert field except the status,
moves the status only to `Mitigated` and only for `isolate_endpoint` or
`lock_account`, and at the state level never touches the event store or the
case list. -/
theorem take_automated_action_frame (a : Alert) (action actor : String) (ts : Nat) :
    ((take_automated_action a action actor ts).1.alert_id = a.alert_id
      ∧ (take_automated_action a action actor ts).1.event = a.event
      ∧ (take_automated_action a action actor ts).1.score = a.score
      ∧ (take_automated_action a action actor ts).1.contributions = a.contributions
      ∧ (take_automated_action a action actor ts).1.created_at = a.created_at
      ∧ (take_automated_action a action actor ts).1.assigned_to = a.assigned_to
      ∧ (take_automated_action a action actor ts).1.case_id = a.case_id)
    ∧ (action = "isolate_endpoint" ∨ action = "lock_account" →
        (take_automated_action a action actor ts).1.status = Status.Mitigated)
    ∧ (¬(action = "isolate_endpoint" ∨ action = "lock_account") →
        (take_automated_action a action actor ts).1.status = a.status)
    ∧ (∀ s i, (do_automated_action s i action actor).events = s.events
        ∧ (do_automated_action s i action actor).cases = s.cases) := by
  refine ⟨?_, ?_, ?_, ?_⟩
  · by_cases hc : action = "isolate_endpoint" ∨ action = "lock_account" <;>
      simp [take_automated_action, hc]
  · intro hc; simp [take_automated_action, hc]
  · intro hc; simp [take_automated_action, hc]
  · intro s i
    unfold do_automated_action
    cases s.alerts.get? i <;> simp

/-- C1: the gate `autoremediate` mutates state iff the auto-enable flag is set and
the score of the alert meets the threshold; on pass it appends exactly the one
audit entry of `take_automated_action` and the alert ends `Mitigated`; on
rejection the whole state is unchanged. -/
theorem autoremediate_gate (s : SysState) (i : Nat) (a : Alert)
    (ha : s.alerts.get? i = some a) :
    (s.auto_enabled = true ∧ s.auto_threshold ≤ a.score →
      (autoremediate s i).audit = s.audit
          ++ [(take_automated_action a "isolate_endpoint" "auto-system" s.clock).2]
        ∧ ((autoremediate s i).alerts.get? i).map Alert.status
            = some Status.Mitigated
        ∧ (autoremediate s i).audit.length = s.audit.length + 1)
    ∧ (¬(s.auto_enabled = true ∧ s.auto_threshold ≤ a.score) →
        autoremediate s i = s) := by
  constructor
  · rintro ⟨he, hs⟩
    have hr : autoremediate s i = do_automated_action s i "isolate_endpoint" "auto-system" := by
      unfold autoremediate
      simp only [he, ha, Bool.true_eq_false, if_false, ge_iff_le, hs, if_true]
    have hd : do_automated_action s i "isolate_endpoint" "auto-system" =
        { s with
          alerts := s.alerts.set i
            (take_automated_action a "isolate_endpoint" "auto-system" s.clock).1
          audit := s.audit ++
            [(take_automated_action a "isolate_endpoint" "auto-system" s.clock).2] } := by
      unfold do_automated_action
      rw [ha]
    rw [hr, hd]
    refine ⟨rfl, ?_, by simp⟩
    have hset := get?_set_some s.alerts ha
      (take_automated_action a "isolate_endpoint" "auto-system" s.clock).1
    show ((s.alerts.set i _).get? i).map Alert.status = some Status.Mitigated
    rw [hset]
    simp [take_automated_action]
  · intro hn
    unfold autoremediate
    by_cases he : s.auto_enabled = false
    · rw [if_pos he]
    · rw [if_neg he]
      simp only [ha]
      have hlt : ¬ (a.score ≥ s.auto_threshold) := fun hge =>
        hn ⟨by simpa using he, hge⟩
      rw [if_neg hlt]

/-- Witness for C1: the pass branch on a one-alert state scoring 0.7 with
threshold 0.65. -/
theorem autoremediate_gate_witness :
    (autoremediate demoState 0).audit = demoState.audit
        ++ [(take_automated_action (mkAlert "al_1" 0.7 Status.New)
              "isolate_endpoint" "auto-system" demoState.clock).2]
      ∧ ((autoremediate demoState 0).alerts.get? 0).map Alert.status
          = some Status.Mitigated
      ∧ (autoremediate demoState 0).audit.length = demoState.audit.length + 1 :=
  (autoremediate_gate demoState 0 (mkAlert "al_1" 0.7 Status.New) rfl).1
    ⟨rfl, by norm_num [demoState, mkAlert]⟩

/-- Witness for C10: a remediation action mitigates, a non-remediation
action leaves the status alone. -/
theorem take_automated_action_frame_witness :
    (take_automated_action (mkAlert "al_1" 0.7 Status.New)
        "isolate_endpoint" "auto-system" 5).1.status = Status.Mitigated
    ∧ (take_automated_action (mkAlert "al_1" 0.7 Status.New)
        "notify" "gui" 5).1.status = Status.New :=
  ⟨(take_automated_action_frame (mkAlert "al_1" 0.7 Status.New)
      "isolate_endpoint" "auto-system" 5).2.1 (Or.inl rfl),
   (take_automated_action_frame (mkAlert "al_1" 0.7 Status.New)
      "notify" "gui" 5).2.2.1 (by simp)⟩

theorem sweepGo_count (thr : ℚ) (clock : Nat) (l : List Alert) :
    (sweepGo thr clock l).2.2 = l.countP (eligible thr) := by
  induction l with
  | nil => rfl
  | cons a rest ih =>
    unfold sweepGo
    by_cases h1 : a.status = Status.Mitigated ∨ a.status = Status.UnderInvestigation
    · rw [if_pos h1]
      have he : eligible thr a = false := by
        simp only [eligible, decide_eq_false_iff_not]
        rintro ⟨⟨hm, hu⟩, _⟩
        rcases h1 with h | h
        · exact hm h
        · exact hu h
      simp [List.countP_cons, he, ih]
    · rw [if_neg h1]
      by_cases h2 : a.score ≥ thr
      · rw [if_pos h2]
        have he : eligible thr a = true := by
          simp only [eligible, decide_eq_true_eq]
          exact ⟨⟨fun h => h1 (Or.inl h), fun h => h1 (Or.inr h)⟩, h2⟩
        simp [List.countP_cons, he, ih]
      · rw [if_neg h2]
        have he : eligible thr a = false := by
          simp only [eligible, decide_eq_false_iff_not]
          rintro ⟨_, hs⟩
          exact h2 hs
        simp [List.countP_cons, he, ih]

theorem sweepGo_alerts (thr : ℚ) (clock : Nat) (l : List Alert) :
    (sweepGo thr clock l).1 = l.map (fun a =>
      if eligible thr a = true
      then (take_automated_action a "isolate_endpoint" "auto-sweep" clock).1
      else a) := by
  induction l with
  | nil => rfl
  | cons a rest ih =>
    unfold sweepGo
    by_cases h1 : a.status = Status.Mitigated ∨ a.status = Status.UnderInvestigation
    · rw [if_pos h1]
      have he : eligible thr a = false := by
        simp only [eligible, decide_eq_false_iff_not]
        rintro ⟨⟨hm, hu⟩, -⟩
        rcases h1 with h | h
        · exact hm h
        · exact hu h
      simp [he, ih]
    · rw [if_neg h1]
      by_cases h2 : a.score ≥ thr
      · rw [if_pos h2]
        have he : eligible thr a = true := by
          simp only [eligible, decide_eq_true_eq]
          exact ⟨⟨fun h => h1 (Or.inl h), fun h => h1 (Or.inr h)⟩, h2⟩
        simp [he, ih]
      · rw [if_neg h2]
        have he : eligible thr a = false := by
          simp only [eligible, decide_eq_false_iff_not]
          rintro ⟨-, hs⟩
          exact h2 hs
        simp [he, ih]

theorem sweepGo_audit (thr : ℚ) (clock : Nat) (l : List Alert) :
    (sweepGo thr clock l).2.1 = (l.filter (eligible thr)).map
      (fun a => (take_automated_action a "isolate_endpoint" "auto-sweep" clock).2) := by
  induction l with
  | nil => rfl
  | cons a rest ih =>
    unfold sweepGo
    by_cases h1 : a.status = Status.Mitigated ∨ a.status = Status.UnderInvestigation
    · rw [if_pos h1]
      have he : eligible thr a = false := by
        simp only [eligible, decide_eq_false_iff_not]
        rintro ⟨⟨hm, hu⟩, -⟩
        rcases h1 with h | h
        · exact hm h
        · exact hu h
      simp [List.filter_cons, he, ih]
    · rw [if_neg h1]
      by_cases h2 : a.score ≥ thr
      · rw [if_pos h2]
        have he : eligible thr a = true := by
          simp only [eligible, decide_eq_true_eq]
          exact ⟨⟨fun h => h1 (Or.inl h), fun h => h1 (Or.inr h)⟩, h2⟩
        simp [List.filter_cons, he, ih]
      · rw [if_neg h2]
        have he : eligible thr a = false := by
          simp only [eligible, decide_eq_false_iff_not]
          rintro ⟨-, hs⟩
          exact h2 hs
        simp [List.filter_cons, he, ih]

/-- C5: on the three-alert scenario (scores 0.5, 0.7, 0.9, threshold 0.65,
auto enabled) the sweep reports 2 actions, appends 2 audit entries, leaves
the 0.5 alert untouched and mitigates the other two; in general the count
reported is the number of alerts not in `Mitigated`/`Under Investigation`
whose score meets the threshold, gathered in one pass in list order. -/
theorem run_auto_sweep_scenario :
    (run_auto_sweep sweepState).2 = 2
    ∧ (run_auto_sweep sweepState).1.audit.length = sweepState.audit.length + 2
    ∧ (run_auto_sweep sweepState).1.alerts.map Alert.status
        = [Status.New, Status.Mitigated, Status.Mitigated]
    ∧ (run_auto_sweep sweepState).1.alerts.get? 0
        = some (mkAlert "al_a" 0.5 Status.New)
    ∧ (∀ s : SysState, s.auto_enabled = true →
        (run_auto_sweep s).2 = s.alerts.countP (eligible s.auto_threshold)) := by
  have hth : sweepState.auto_threshold = 0.65 := rfl
  have ea : eligible sweepState.auto_threshold (mkAlert "al_a" 0.5 Status.New) = false := by
    simp only [eligible, decide_eq_false_iff_not]
    rintro ⟨-, hs⟩
    rw [hth] at hs
    norm_num [mkAlert] at hs
  have eb : eligible sweepState.auto_threshold (mkAlert "al_b" 0.7 Status.New) = true := by
    simp only [eligible, decide_eq_true_eq]
    refine ⟨⟨by decide, by decide⟩, ?_⟩
    rw [hth]; norm_num [mkAlert]
  have ec : eligible sweepState.auto_threshold (mkAlert "al_c" 0.9 Status.New) = true := by
    simp only [eligible, decide_eq_true_eq]
    refine ⟨⟨by decide, by decide⟩, ?_⟩
    rw [hth]; norm_num [mkAlert]
  have hrun : run_auto_sweep sweepState =
      ({ sweepState with
          alerts := (sweepGo sweepState.auto_threshold sweepState.clock sweepState.alerts).1
          audit := sweepState.audit
            ++ (sweepGo sweepState.auto_threshold sweepState.clock sweepState.alerts).2.1 },
        (sweepGo sweepState.auto_threshold sweepState.clock sweepState.alerts).2.2) := by
    unfold run_auto_sweep
    rw [if_neg (by decide)]
  have halerts : sweepState.alerts
      = [mkAlert "al_a" 0.5 Status.New, mkAlert "al_b" 0.7 Status.New,
         mkAlert "al_c" 0.9 Status.New] := rfl
  refine ⟨?_, ?_, ?_, ?_, ?_⟩
  · rw [hrun]
    show (sweepGo sweepState.auto_threshold sweepState.clock sweepState.alerts).2.2 = 2
    rw [sweepGo_count, halerts]
    simp [List.countP_cons, ea, eb, ec]
  · rw [hrun]
    show (sweepState.audit
      ++ (sweepGo sweepState.auto_threshold sweepState.clock sweepState.alerts).2.1).length
        = sweepState.audit.length + 2
    rw [sweepGo_audit, halerts]
    simp [List.filter_cons, ea, eb, ec]
  · rw [hrun]
    show ((sweepGo sweepState.auto_threshold sweepState.clock sweepState.alerts).1.map
      Alert.status) = [Status.New, Status.Mitigated, Status.Mitigated]
    rw [sweepGo_alerts, halerts]
    simp [ea, eb, ec, take_automated_action]
    rfl
  · rw [hrun]
    show (sweepGo sweepState.auto_threshold sweepState.clock sweepState.alerts).1.get? 0
        = some (mkAlert "al_a" 0.5 Status.New)
    rw [sweepGo_alerts, halerts]
    simp [ea]
  · intro s hs
    unfold run_auto_sweep
    rw [if_neg (by simp [hs])]
    exact sweepGo_count _ _ _

/-- Witness for the general clause of C5 at the scenario state. -/
theorem run_auto_sweep_scenario_witness :
    (run_auto_sweep sweepState).2
      = sweepState.alerts.countP (eligible sweepState.auto_threshold) :=
  run_auto_sweep_scenario.2.2.2.2 sweepState rfl

theorem do_automated_action_eq (s : SysState) {i : Nat} {a : Alert}
    (ha : s.alerts.get? i = some a) (action actor : String) :
    do_automated_action s i action actor =
      { s with
        alerts := s.alerts.set i (take_automated_action a action actor s.clock).1
        audit := s.audit ++ [(take_automated_action a action actor s.clock).2] } := by
  unfold do_automated_action
  rw [ha]

theorem do_automated_action_audit_mono (s : SysState) (i : Nat) (action actor : String) :
    ∃ t, (do_automated_action s i action actor).audit = s.audit ++ t := by
  cases ha : s.alerts.get? i with
  | none =>
    refine ⟨[], ?_⟩
    unfold do_automated_action
    rw [ha]
    exact (List.append_nil _).symm
  | some a =>
    exact ⟨_, by rw [do_automated_action_eq s ha]⟩

theorem applyOp_audit_mono (s : SysState) (op : Op) :
    ∃ t, (applyOp s op).audit = s.audit ++ t := by
  cases op with
  | assign j analyst =>
    show ∃ t, (assign_alert s j analyst).audit = s.audit ++ t
    unfold assign_alert
    cases ha : s.alerts.get? j with
    | none => exact ⟨[], (List.append_nil _).symm⟩
    | some a => exact ⟨_, rfl⟩
  | createCase j =>
    show ∃ t, (create_case_from_alert s j).audit = s.audit ++ t
    unfold create_case_from_alert
    cases ha : s.alerts.get? j with
    | none => exact ⟨[], (List.append_nil _).symm⟩
    | some a => exact ⟨_, rfl⟩
  | closeCase j =>
    show ∃ t, (close_case s j).audit = s.audit ++ t
    unfold close_case
    cases ha : s.cases.get? j with
    | none => exact ⟨[], (List.append_nil _).symm⟩
    | some c => exact ⟨_, rfl⟩
  | autoAction j action actor =>
    exact do_automated_action_audit_mono s j action actor
  | remediate j =>
    show ∃ t, (autoremediate s j).audit = s.audit ++ t
    unfold autoremediate
    by_cases he : s.auto_enabled = false
    · rw [if_pos he]
      exact ⟨[], (List.append_nil _).symm⟩
    · rw [if_neg he]
      cases ha : s.alerts.get? j with
      | none => exact ⟨[], (List.append_nil _).symm⟩
      | some a =>
        dsimp only
        by_cases hs : a.score ≥ s.auto_threshold
        · rw [if_pos hs]
          exact do_automated_action_audit_mono s j _ _
        · rw [if_neg hs]
          exact ⟨[], (List.append_nil _).symm⟩
  | sweep =>
    show ∃ t, (run_auto_sweep s).1.audit = s.audit ++ t
    unfold run_auto_sweep
    by_cases he : s.auto_enabled = false
    · rw [if_pos he]
      exact ⟨[], (List.append_nil _).symm⟩
    · rw [if_neg he]
      exact ⟨_, rfl⟩

/-- C7: across any sequence of lifecycle operations the audit log only ever
grows by appending — every prior entry survives unmodified in place — and a
remediation attempt that passes the gate appends exactly one entry. -/
theorem audit_append_only (s : SysState) (ops : List Op) :
    (∃ t, (applyOps s ops).audit = s.audit ++ t)
    ∧ (∀ i a, s.alerts.get? i = some a → s.auto_enabled = true →
        s.auto_threshold ≤ a.score →
        (autoremediate s i).audit.length = s.audit.length + 1) := by
  constructor
  · induction ops generalizing s with
    | nil => exact ⟨[], (List.append_nil _).symm⟩
    | cons op rest ih =>
      obtain ⟨t1, h1⟩ := applyOp_audit_mono s op
      obtain ⟨t2, h2⟩ := ih (applyOp s op)
      refine ⟨t1 ++ t2, ?_⟩
      show (applyOps (applyOp s op) rest).audit = _
      rw [h2, h1, List.append_assoc]
  · intro i a ha he hs
    have hr : autoremediate s i = do_automated_action s i "isolate_endpoint" "auto-system" := by
      unfold autoremediate
      simp only [he, ha, Bool.true_eq_false, if_false, ge_iff_le, hs, if_true]
    rw [hr, do_automated_action_eq s ha]
    simp

/-- Witness for C7: one assignment on the demo state extends the log, and
the passing remediation on the demo state appends exactly one entry. -/
theorem audit_append_only_witness :
    (∃ t, (applyOps demoState [Op.assign 0 "u002"]).audit = demoState.audit ++ t)
    ∧ (autoremediate demoState 0).audit.length = demoState.audit.length + 1 :=
  ⟨(audit_append_only demoState [Op.assign 0 "u002"]).1,
   (audit_append_only demoState [Op.assign 0 "u002"]).2 0
     (mkAlert "al_1" 0.7 Status.New) rfl rfl (by norm_num [demoState, mkAlert])⟩

theorem get?_set_cases {α : Type _} {l : List α} {j i : Nat} {b a' : α}
    (h : (l.set j b).get? i = some a') : (j = i ∧ a' = b) ∨ l.get? i = some a' := by
  rw [List.get?_set] at h
  by_cases hj : j = i
  · rw [if_pos hj] at h
    cases hl : l.get? i with
    | none => rw [hl] at h; cases h
    | some c =>
      rw [hl] at h
      simp only [Option.map_eq_map, Option.map_some'] at h
      exact Or.inl ⟨hj, (Option.some.inj h).symm⟩
  · rw [if_neg hj] at h
    exact Or.inr h

theorem do_automated_action_status_cases (s : SysState) (j : Nat)
    (action actor : String) (i : Nat) (a' : Alert)
    (h : (do_automated_action s j action actor).alerts.get? i = some a') :
    (∃ a, s.alerts.get? i = some a ∧ a'.status = a.status)
    ∨ a'.status = Status.Mitigated := by
  cases ha : s.alerts.get? j with
  | none =>
    unfold do_automated_action at h
    rw [ha] at h
    exact Or.inl ⟨a', h, rfl⟩
  | some b =>
    rw [do_automated_action_eq s ha] at h
    rcases get?_set_cases h with ⟨hji, hab⟩ | hb
    · subst hji
      by_cases hrem : action = "isolate_endpoint" ∨ action = "lock_account"
      · refine Or.inr ?_
        rw [hab]
        simp [take_automated_action, hrem]
      · refine Or.inl ⟨b, ha, ?_⟩
        rw [hab]
        simp [take_automated_action, hrem]
    · exact Or.inl ⟨a', hb, rfl⟩

theorem applyOp_status_cases (s : SysState) (op : Op) (i : Nat) (a' : Alert)
    (h : (applyOp s op).alerts.get? i = some a') :
    (∃ a, s.alerts.get? i = some a ∧ a'.status = a.status)
    ∨ a'.status = Status.Triaged
    ∨ a'.status = Status.UnderInvestigation
    ∨ a'.status = Status.Mitigated := by
  cases op with
  | assign j analyst =>
    change (assign_alert s j analyst).alerts.get? i = some a' at h
    unfold assign_alert at h
    cases ha : s.alerts.get? j with
    | none =>
      rw [ha] at h
      exact Or.inl ⟨a', h, rfl⟩
    | some b =>
      rw [ha] at h
      rcases get?_set_cases h with ⟨hji, hab⟩ | hb
      · rw [hab]
        exact Or.inr (Or.inl rfl)
      · exact Or.inl ⟨a', hb, rfl⟩
  | createCase j =>
    change (create_case_from_alert s j).alerts.get? i = some a' at h
    unfold create_case_from_alert at h
    cases ha : s.alerts.get? j with
    | none =>
      rw [ha] at h
      exact Or.inl ⟨a', h, rfl⟩
    | some b =>
      rw [ha] at h
      rcases get?_set_cases h with ⟨hji, hab⟩ | hb
      · rw [hab]
        exact Or.inr (Or.inr (Or.inl rfl))
      · exact Or.inl ⟨a', hb, rfl⟩
  | closeCase j =>
    change (close_case s j).alerts.get? i = some a' at h
    unfold close_case at h
    cases ha : s.cases.get? j with
    | none =>
      rw [ha] at h
      exact Or.inl ⟨a', h, rfl⟩
    | some c =>
      rw [ha] at h
      exact Or.inl ⟨a', h, rfl⟩
  | autoAction j action actor =>
    rcases do_automated_action_status_cases s j action actor i a' h with hc | hc
    · exact Or.inl hc
    · exact Or.inr (Or.inr (Or.inr hc))
  | remediate j =>
    change (autoremediate s j).alerts.get? i = some a' at h
    unfold autoremediate at h
    by_cases he : s.auto_enabled = false
    · rw [if_pos he] at h
      exact Or.inl ⟨a', h, rfl⟩
    · rw [if_neg he] at h
      cases ha : s.alerts.get? j with
      | none =>
        rw [ha] at h
        exact Or.inl ⟨a', h, rfl⟩
      | some b =>
        rw [ha] at h
        dsimp only at h
        by_cases hs : b.score ≥ s.auto_threshold
        · rw [if_pos hs] at h
          rcases do_automated_action_status_cases s j _ _ i a' h with hc | hc
          · exact Or.inl hc
          · exact Or.inr (Or.inr (Or.inr hc))
        · rw [if_neg hs] at h
          exact Or.inl ⟨a', h, rfl⟩
  | sweep =>
    change (run_auto_sweep s).1.alerts.get? i = some a' at h
    unfold run_auto_sweep at h
    by_cases he : s.auto_enabled = false
    · rw [if_pos he] at h
      exact Or.inl ⟨a', h, rfl⟩
    · rw [if_neg he] at h
      have hmap : (sweepGo s.auto_threshold s.clock s.alerts).1.get? i = some a' := h
      rw [sweepGo_alerts, List.get?_map] at hmap
      cases ha : s.alerts.get? i with
      | none => rw [ha] at hmap; cases hmap
      | some a =>
        rw [ha] at hmap
        simp only [Option.map_some'] at hmap
        by_cases hel : eligible s.auto_threshold a = true
        · rw [if_pos hel] at hmap
          refine Or.inr (Or.inr (Or.inr ?_))
          rw [← Option.some.inj hmap]
          simp [take_automated_action]
        · rw [if_neg hel] at hmap
          exact Or.inl ⟨a, rfl, by rw [← Option.some.inj hmap]⟩

/-- C6 counterexample: the single alert of `mitState` is `Mitigated`, yet
after one (unguarded) assignment its status is `Triaged` again — the code
lets a `Mitigated` alert return to `Triaged`. -/
theorem mitigated_back_to_triaged :
    (mitState.alerts.get? 0).map Alert.status = some Status.Mitigated
    ∧ ((applyOps mitState [Op.assign 0 "u001"]).alerts.get? 0).map Alert.status
        = some Status.Triaged := ⟨rfl, rfl⟩

/-- C6 amended: once an alert is `Mitigated`, no sequence of lifecycle
operations ever takes its status back to `New` (`Triaged` stays reachable
through the unguarded assignment). -/
theorem mitigated_never_new (s : SysState) (ops : List Op) (i : Nat)
    (h : (s.alerts.get? i).map Alert.status = some Status.Mitigated) :
    ∀ a, (applyOps s ops).alerts.get? i = some a → a.status ≠ Status.New := by
  have hinv : ∀ a, s.alerts.get? i = some a → a.status ≠ Status.New := by
    intro a ha
    rw [ha] at h
    simp only [Option.map_some', Option.some.injEq] at h
    rw [h]
    intro hc
    cases hc
  clear h
  induction ops generalizing s with
  | nil => exact hinv
  | cons op rest ih =>
    show ∀ a, (applyOps (applyOp s op) rest).alerts.get? i = some a → _
    apply ih
    intro a' ha'
    rcases applyOp_status_cases s op i a' ha' with ⟨a, ha, hst⟩ | hst | hst | hst
    · rw [hst]
      exact hinv a ha
    all_goals (rw [hst]; intro hc; cases hc)

/-- Witness for the amended C6 on the concrete `Mitigated` state: the
alert produced by the assignment is not `New`. -/
theorem mitigated_never_new_witness :
    ({ mkAlert "al_m" 0.9 Status.Mitigated with
        assigned_to := some "u001", status := Status.Triaged } : Alert).status
      ≠ Status.New :=
  mitigated_never_new mitState [Op.assign 0 "u001"] 0 rfl _ rfl

end ITS
